import Mathlib

/-
Shallow embedding of src/client_examples/ax206vncclient.c.

The USB layer (libusb_bulk_transfer) is external: it is modelled as an
oracle `resp : Nat → BulkResult` giving the outcome of the k-th bulk
transfer issued during a run; a counter of issued transfers is threaded
through the functions.  The static 13-byte `ansbuf` of wrap_scsi persists
across calls, so it is threaded explicitly as well.  Machine integers are
modelled as Int (C int / short) and Nat (unsigned char bytes, sizes), with
explicit reductions where C converts between widths.
-/

set_option linter.unusedVariables false
set_option maxRecDepth 100000

/-- Outcome of one libusb_bulk_transfer call: the returned status code,
the reported number of bytes transferred, and (for IN transfers) the bytes
the device delivered into the destination buffer. -/
structure BulkResult where
  ret : Int
  transfered : Int
  data : List Nat
deriving DecidableEq, Repr

/-- C conversion of a Nat-valued expression to a 32-bit signed int
(two's complement wrap), as used by the `(int) block_len` cast. -/
def toInt32 (n : Nat) : Int :=
  let m := n % 4294967296
  if m < 2147483648 then (m : Int) else (m : Int) - 4294967296

/-- C conversion of an int-valued expression to `unsigned char`. -/
def byteOfInt (v : Int) : Nat := (v.emod 256).toNat

/-- Arithmetic right shift by 8 of a C int (gcc semantics). -/
def shr8 (v : Int) : Int := Int.shiftRight v 8

/-- `unsigned char` stores of the four bytes of an unsigned long,
as in `g_buf[8] = block_len; g_buf[9] = block_len >> 8; ...`. -/
def le32 (n : Nat) : List Nat :=
  [n % 256, n / 256 % 256, n / 65536 % 256, n / 16777216 % 256]

/-- The 31-byte command block wrapper `g_buf` as sent by wrap_scsi:
fixed signature and tag, little-endian expected length, flags 0, LUN 0,
command length, then the command bytes (every caller passes cmdlen = 16,
exactly filling the command slot). -/
def cbwEnvelope (cmd : List Nat) (cmdlen : Nat) (block_len : Nat) : List Nat :=
  [0x55, 0x53, 0x42, 0x43, 0xde, 0xad, 0xbe, 0xef] ++ le32 block_len ++
    [0x00, 0x00, cmdlen % 256] ++ cmd.take cmdlen

def DIR_IN : Nat := 0
def DIR_OUT : Nat := 1

/-- The fixed status signature "USBS" checked by
`strncmp((char *) ansbuf, "USBS", 4)`. -/
def usbsSig : List Nat := [0x55, 0x53, 0x42, 0x53]

/-- Overwrite of a prefix of a fixed buffer by a bulk IN transfer that
reported `t` bytes transferred. -/
def writePrefix (old new : List Nat) (t : Nat) : List Nat :=
  new.take t ++ old.drop t

/-- The status ("get ACK") do-while loop of wrap_scsi, lines 376-387:
one bulk IN read of 13 bytes per attempt into the static ansbuf, looping
while the attempt failed and fewer than 5 attempts were made.  `fuel` is
5 - retry; the function returns the next transfer index and the final
ansbuf contents.  Note the loop body itself never aborts: control always
falls through to the signature check that follows it. -/
def statusAttempts (resp : Nat → BulkResult) : Nat → Nat → List Nat → Nat × List Nat
  | 0, k, buf => (k, buf)
  | fuel + 1, k, buf =>
    let r := resp k
    let t := min r.transfered.toNat 13
    let buf' := writePrefix buf r.data t
    if r.ret = 0 ∧ r.transfered = 13 then (k + 1, buf')
    else if fuel = 0 then (k + 1, buf')
    else statusAttempts resp fuel (k + 1) buf'

/-- The data phase of wrap_scsi (lines 359-373), entered at transfer index
`k`: an OUT bulk write or an IN bulk read of `block_len` bytes when a data
buffer is given, nothing otherwise.  Returns `(some code, bytesRead, k')`
when the phase aborts wrap_scsi with return value `code` (note: a short
transfer with libusb status 0 aborts with code 0, exactly as the source's
`return ret`), and `(none, bytesRead, k')` when it falls through. -/
def dataPhase (resp : Nat → BulkResult) (k : Nat) (out : Nat)
    (data : Option (List Nat)) (block_len : Nat) : Option Int × List Nat × Nat :=
  if out = DIR_OUT then
    match data with
    | some _ =>
      let r2 := resp k
      if r2.ret ≠ 0 ∨ r2.transfered ≠ toInt32 block_len then (some r2.ret, [], k + 1)
      else (none, [], k + 1)
    | none => (none, [], k)
  else
    match data with
    | some _ =>
      let r2 := resp k
      let t := min r2.transfered.toNat block_len
      if r2.ret ≠ 0 ∨ r2.transfered ≠ toInt32 block_len then (some r2.ret, r2.data.take t, k + 1)
      else (none, r2.data.take t, k + 1)
    | none => (none, [], k)

/-- Result of one wrap_scsi call: the int it returns, the bytes it read
into the caller's data buffer, the final contents of the static ansbuf,
and the next bulk-transfer index (= number of transfers issued so far). -/
structure WrapResult where
  code : Int
  dataRead : List Nat
  ansbuf : List Nat
  calls : Nat
deriving Repr

/-- wrap_scsi, lines 339-394.  Phase 1 sends the 31-byte envelope and
aborts with the libusb code on error; phase 2 is `dataPhase`; phase 3 is
the `statusAttempts` loop followed unconditionally by the "USBS" signature
check (return -1 on mismatch) and by returning byte 12 of ansbuf. -/
def wrap_scsi (resp : Nat → BulkResult) (k0 : Nat) (ansbuf0 : List Nat)
    (cmd : List Nat) (cmdlen : Nat) (out : Nat) (data : Option (List Nat))
    (block_len : Nat) : WrapResult :=
  let env := cbwEnvelope cmd cmdlen block_len
  let r1 := resp k0
  if r1.ret ≠ 0 then ⟨r1.ret, [], ansbuf0, k0 + 1⟩
  else
    match dataPhase resp (k0 + 1) out data block_len with
    | (some c, dr, k1) => ⟨c, dr, ansbuf0, k1⟩
    | (none, dr, k1) =>
      let sres := statusAttempts resp 5 k1 ansbuf0
      if sres.2.take 4 ≠ usbsSig then ⟨-1, dr, sres.2, sres.1⟩
      else ⟨Int.ofNat (sres.2.getD 12 0), dr, sres.2, sres.1⟩

/-- One 32-bit RGBA pixel as handed to drv_set_pixel. -/
structure RGBA where
  R : Nat
  G : Nat
  B : Nat
  A : Nat
deriving DecidableEq, Repr

/-- Macro `_RGB565_0(p)`: first byte of the packed 565 color. -/
def _RGB565_0 (p : RGBA) : Nat := (p.R &&& 0xf8) ||| ((p.G &&& 0xe0) >>> 5)

/-- Macro `_RGB565_1(p)`: second byte of the packed 565 color. -/
def _RGB565_1 (p : RGBA) : Nat := ((p.G &&& 0x1c) <<< 3) ||| ((p.B &&& 0xf8) >>> 3)

/-- The global `dpf` state plus the globals DROWS/DCOLS.  The two pixel
buffers are byte memories; `lcdBufSize`/`xferBufSize` record the sizes
malloc'd for them in main. -/
structure DpfState where
  lcdBuf : Nat → Nat
  xferBuf : Nat → Nat
  lcdBufSize : Nat
  xferBufSize : Nat
  pwidth : Int
  pheight : Int
  minx : Int
  maxx : Int
  miny : Int
  maxy : Int
  dcols : Int
  drows : Int

/-- Byte index of pixel (lx, ly): `(ly * dpf.pwidth + lx) * DPF_BPP`. -/
def pixIndex (pw lx ly : Int) : Nat := ((ly * pw + lx) * 2).toNat

/-- drv_set_pixel, lines 249-282: reduce modulo the logical size with C
truncated remainder, bounds-check against the physical size (out of range
logs and returns), convert to 565, write the two bytes only if they
differ from the stored ones, and on an actual change expand the dirty
rectangle to include the pixel. -/
def drv_set_pixel (s : DpfState) (x y : Int) (pix : RGBA) : DpfState :=
  let sx := s.dcols
  let sy := s.drows
  let lx := Int.tmod x sx
  let ly := Int.tmod y sy
  if lx < 0 ∨ s.pwidth ≤ lx ∨ ly < 0 ∨ s.pheight ≤ ly then s
  else
    let c1 := _RGB565_0 pix
    let c2 := _RGB565_1 pix
    let i := pixIndex s.pwidth lx ly
    if s.lcdBuf i ≠ c1 ∨ s.lcdBuf (i + 1) ≠ c2 then
      { s with
        lcdBuf := Function.update (Function.update s.lcdBuf i c1) (i + 1) c2
        minx := min s.minx lx
        maxx := max s.maxx lx
        miny := min s.miny ly
        maxy := max s.maxy ly }
    else s

/-- The `short rect[4]` argument of dpf_ax_screen_blit. -/
structure SRect where
  r0 : Int
  r1 : Int
  r2 : Int
  r3 : Int
deriving DecidableEq, Repr

/-- The 16 command bytes dpf_ax_screen_blit writes into g_excmd
(lines 305-314): the constant prefix 0xcd 0 0 0 0 6 left from the
initializer, then USBCMD_BLIT, the four coordinates stored byte by byte,
and the final zero. -/
def blitCmd (rect : SRect) : List Nat :=
  [0xcd, 0, 0, 0, 0, 6,
   0x12,
   byteOfInt rect.r0, byteOfInt (shr8 rect.r0),
   byteOfInt rect.r1, byteOfInt (shr8 rect.r1),
   byteOfInt (rect.r2 - 1), byteOfInt (shr8 (rect.r2 - 1)),
   byteOfInt (rect.r3 - 1), byteOfInt (shr8 (rect.r3 - 1)),
   0]

/-- `len = (rect[2] - rect[0]) * (rect[3] - rect[1]); len <<= 1;` with
len an unsigned long (wrap modulo 2^64 on the conversion and the shift). -/
def blitLen (rect : SRect) : Nat :=
  ((((rect.r2 - rect.r0) * (rect.r3 - rect.r1)).emod 18446744073709551616).toNat * 2) %
    18446744073709551616

/-- The argument tuple of one wrap_scsi invocation. -/
structure ScsiCall where
  cmd : List Nat
  cmdlen : Nat
  dir : Nat
  data : Option (List Nat)
  blockLen : Nat
deriving DecidableEq, Repr

/-- Execute a ScsiCall through wrap_scsi. -/
def performScsi (resp : Nat → BulkResult) (k : Nat) (ansbuf : List Nat)
    (c : ScsiCall) : WrapResult :=
  wrap_scsi resp k ansbuf c.cmd c.cmdlen c.dir c.data c.blockLen

/-- The wrap_scsi invocation made by dpf_ax_screen_blit, line 316:
`wrap_scsi(h, cmd, sizeof(g_excmd), DIR_OUT, buf, len)`. -/
def dpf_ax_screen_blit_call (rect : SRect) (buf : List Nat) : ScsiCall :=
  ⟨blitCmd rect, 16, DIR_OUT, some buf, blitLen rect⟩

/-- dpf_ax_screen_blit, lines 299-317.  The function is void: the value
wrap_scsi returns is dropped; only the transfer counter and the static
ansbuf survive as effects visible in the model. -/
def dpf_ax_screen_blit (resp : Nat → BulkResult) (k : Nat) (ansbuf : List Nat)
    (rect : SRect) (buf : List Nat) : Unit × Nat × List Nat :=
  let w := performScsi resp k ansbuf (dpf_ax_screen_blit_call rect buf)
  ((), w.calls, w.ansbuf)

/-- Bytes of one row slice of a byte memory. -/
def rowBytes (buf : Nat → Nat) (start len : Nat) : List Nat :=
  (List.range len).map (fun j => buf (start + j))

/-- The scratch-buffer payload built by update, lines 467-474: for each
row from miny to maxy, the `(maxx - minx + 1) * DPF_BPP` bytes starting at
`(ly * pwidth + minx) * DPF_BPP`, packed contiguously. -/
def buildXfer (s : DpfState) : List Nat :=
  let cpylength : Nat := ((s.maxx - s.minx + 1) * 2).toNat
  (List.range ((s.maxy - s.miny + 1).toNat)).foldr
    (fun r acc =>
      rowBytes s.lcdBuf ((((s.miny + (r : Int)) * s.pwidth + s.minx) * 2).toNat) cpylength ++ acc)
    []

/-- The flush half of update, lines 462-489: if the dirty rectangle is
empty, return at once; otherwise copy the dirty rows into the transfer
buffer, blit `[minx, miny, maxx + 1, maxy + 1]`, and reset the dirty
rectangle to (pwidth - 1, 0, pheight - 1, 0) unconditionally. -/
def update_flush (resp : Nat → BulkResult) (s : DpfState) (k : Nat)
    (ansbuf : List Nat) : DpfState × Nat × List Nat :=
  if s.minx > s.maxx ∨ s.miny > s.maxy then (s, k, ansbuf)
  else
    let xfer := buildXfer s
    let rect : SRect := ⟨s.minx, s.miny, s.maxx + 1, s.maxy + 1⟩
    let b := dpf_ax_screen_blit resp k ansbuf rect xfer
    ({ s with
        xferBuf := fun j => if j < xfer.length then xfer.getD j 0 else s.xferBuf j
        minx := s.pwidth - 1
        maxx := 0
        miny := s.pheight - 1
        maxy := 0 },
     b.2.1, b.2.2)

/-- Row-major coordinate list of the update loops: ly from y to y + h - 1,
lx from x to x + w - 1. -/
def coordList (x y w h : Int) : List (Int × Int) :=
  (List.range h.toNat).foldr
    (fun r acc => ((List.range w.toNat).map (fun c => (x + (c : Int), y + (r : Int)))) ++ acc)
    []

/-- The pixel loop of update, lines 454-460: set every listed pixel from
the client framebuffer (bytes R, G, B at stride 4; the A field of the
local RGBA variable is never assigned in the source and the conversion
ignores it, so it is modelled as 0). -/
def pixelFold (fb : Nat → Nat) (s : DpfState) (l : List (Int × Int)) : DpfState :=
  l.foldl
    (fun st p =>
      drv_set_pixel st p.1 p.2
        ⟨fb (((p.2 * st.pwidth + p.1) * 4).toNat),
         fb (((p.2 * st.pwidth + p.1) * 4).toNat + 1),
         fb (((p.2 * st.pwidth + p.1) * 4).toNat + 2),
         0⟩) s

/-- update, lines 448-490: run the pixel loop over the notified region,
then the flush half. -/
def update (resp : Nat → BulkResult) (fb : Nat → Nat) (s : DpfState) (k : Nat)
    (ansbuf : List Nat) (x y w h : Int) : DpfState × Nat × List Nat :=
  update_flush resp (pixelFold fb s (coordList x y w h)) k ansbuf

/-- The DPFContext handle: the discovered panel dimensions stored by
dpf_ax_open (the opened libusb device itself is outside the model). -/
structure DPFContext where
  width : Nat
  height : Nat
deriving DecidableEq, Repr

/-- The dimension store of dpf_ax_open, lines 209-210:
`dpf->width = buf[0] | (buf[1] << 8); dpf->height = buf[2] | (buf[3] << 8)`. -/
def dpf_ax_open_dims (buf : List Nat) : DPFContext :=
  { width := buf.getD 0 0 ||| (buf.getD 1 0 <<< 8)
    height := buf.getD 2 0 ||| (buf.getD 3 0 <<< 8) }

/-- The driver-state initialization of main, lines 558-576: hardcoded
physical dimensions 480 x 320, both buffers malloc'd with size
pwidth * pheight * DPF_BPP (the transfer buffer is not cleared, so its
initial contents are a parameter), the display buffer cleared to black,
the dirty rectangle set to the full panel, and DROWS/DCOLS set from the
physical dimensions.  The opened handle's discovered width/height are not
consulted. -/
def main_init (ctx : DPFContext) (xfer0 : Nat → Nat) : DpfState :=
  { lcdBuf := fun _ => 0
    xferBuf := xfer0
    lcdBufSize := 480 * 320 * 2
    xferBufSize := 480 * 320 * 2
    pwidth := 480
    pheight := 320
    minx := 0
    maxx := 480 - 1
    miny := 0
    maxy := 320 - 1
    dcols := 480
    drows := 320 }

/-- A setPixel call: coordinates and pixel. -/
structure PixCall where
  x : Int
  y : Int
  pix : RGBA
deriving DecidableEq, Repr

/-- A sequence of drv_set_pixel calls. -/
def applyCalls : DpfState → List PixCall → DpfState
  | s, [] => s
  | s, c :: rest => applyCalls (drv_set_pixel s c.x c.y c.pix) rest

/-- The dirty rectangle of a state as a tuple (minx, maxx, miny, maxy). -/
def rectOf (s : DpfState) : Int × Int × Int × Int := (s.minx, s.maxx, s.miny, s.maxy)

/-- Expand a (minx, maxx, miny, maxy) tuple to include the point (x, y). -/
def bboxInsert (r : Int × Int × Int × Int) (x y : Int) : Int × Int × Int × Int :=
  (min r.1 x, max r.2.1 x, min r.2.2.1 y, max r.2.2.2 y)

/-- Whether the call would store bytes differing from those already in
the display buffer (the `changed` test of drv_set_pixel). -/
def changesPixel (s : DpfState) (c : PixCall) : Bool :=
  let i := pixIndex s.pwidth c.x c.y
  (s.lcdBuf i != _RGB565_0 c.pix) || (s.lcdBuf (i + 1) != _RGB565_1 c.pix)

/-- A 480 x 320 driver state just after a flush: display buffer black,
dirty rectangle in the post-flush empty encoding (479, 0, 319, 0). -/
def flushedState : DpfState :=
  { lcdBuf := fun _ => 0
    xferBuf := fun _ => 0
    lcdBufSize := 480 * 320 * 2
    xferBufSize := 480 * 320 * 2
    pwidth := 480
    pheight := 320
    minx := 480 - 1
    maxx := 0
    miny := 320 - 1
    maxy := 0
    dcols := 480
    drows := 320 }

/-- An all-zero 13-byte ansbuf. -/
def zeroAnsbuf : List Nat := List.replicate 13 0

/-- A length-correct status reply with a valid signature and return code 0. -/
def okReply : List Nat := [0x55, 0x53, 0x42, 0x53, 0, 0, 0, 0, 0, 0, 0, 0, 0]

/-- A length-correct status reply whose signature is wrong and whose
return-code byte is 9. -/
def badSigReply : List Nat := [1, 2, 3, 4, 0, 0, 0, 0, 0, 0, 0, 0, 9]

/-- Transfer oracle: every bulk transfer succeeds; status reads deliver
`okReply`. -/
def respAllOk : Nat → BulkResult :=
  fun k => if k = 0 then ⟨0, 31, []⟩ else if k = 1 then ⟨0, 2, []⟩ else ⟨0, 13, okReply⟩

/-- Transfer oracle: the very first bulk transfer (the envelope) fails
with libusb code -7. -/
def respEnvFail : Nat → BulkResult := fun _ => ⟨-7, 0, []⟩

/-- Transfer oracle for the status-phase fall-through run: the envelope
succeeds and every later transfer fails with libusb code -110 reporting 0
bytes. -/
def respStatusFail : Nat → BulkResult :=
  fun k => if k = 0 then ⟨0, 31, []⟩ else ⟨-110, 0, []⟩

/-- A stale ansbuf as left behind by an earlier successful call: valid
"USBS" signature and peer return code 7 at offset 12. -/
def staleAnsbuf : List Nat := [0x55, 0x53, 0x42, 0x53, 0, 0, 0, 0, 0, 0, 0, 0, 7]

/-- Transfer oracle: envelope succeeds, then the first status read
succeeds and delivers `badSigReply`. -/
def respBadSig : Nat → BulkResult :=
  fun k => if k = 0 then ⟨0, 31, []⟩ else ⟨0, 13, badSigReply⟩

/-- Spec-side formulation (claim C8's words): a value laid out as a
16-bit little-endian pair of bytes. -/
def le16 (v : Int) : List Nat := [(v.emod 65536).toNat % 256, (v.emod 65536).toNat / 256]

/-- The state produced by the `changed` branch of drv_set_pixel at an
in-bounds, already-reduced coordinate: both bytes stored and the dirty
rectangle expanded. -/
def setState (s : DpfState) (c : PixCall) : DpfState :=
  { s with
    lcdBuf := Function.update
      (Function.update s.lcdBuf (pixIndex s.pwidth c.x c.y) (_RGB565_0 c.pix))
      (pixIndex s.pwidth c.x c.y + 1) (_RGB565_1 c.pix)
    minx := min s.minx c.x
    maxx := max s.maxx c.x
    miny := min s.miny c.y
    maxy := max s.maxy c.y }

/-- The two writes of the spec's 480 x 320 scenario: red at (10, 10) and
green at (20, 20). -/
def demoCalls : List PixCall :=
  [⟨10, 10, ⟨255, 0, 0, 255⟩⟩, ⟨20, 20, ⟨0, 255, 0, 255⟩⟩]

/-! Helper lemmas. -/

theorem tmod_eq_self {a n : Int} (h0 : 0 ≤ a) (h1 : a < n) : Int.tmod a n = a := by
  have hn : 0 ≤ n := le_of_lt (lt_of_le_of_lt h0 h1)
  lift a to ℕ using h0
  lift n to ℕ using hn
  have h : Int.tmod (a : Int) (n : Int) = ((a % n : Nat) : Int) := rfl
  rw [h]
  have : a % n = a := Nat.mod_eq_of_lt (by exact_mod_cast h1)
  rw [this]

theorem bits_e1 : ∀ r < 256, r &&& 248 = (r >>> 3) <<< 3 := by decide

theorem bits_e2 : ∀ g < 256, (g &&& 224) >>> 5 = g >>> 5 := by decide

theorem bits_e3 : ∀ g < 256, (g &&& 28) <<< 3 = ((g >>> 2) &&& 7) <<< 5 := by decide

theorem bits_e4 : ∀ b < 256, (b &&& 248) >>> 3 = b >>> 3 := by decide

theorem changesPixel_iff (s : DpfState) (c : PixCall) :
    changesPixel s c = true ↔
      (s.lcdBuf (pixIndex s.pwidth c.x c.y) ≠ _RGB565_0 c.pix ∨
       s.lcdBuf (pixIndex s.pwidth c.x c.y + 1) ≠ _RGB565_1 c.pix) := by
  simp [changesPixel]

theorem setState_pwidth (s : DpfState) (c : PixCall) : (setState s c).pwidth = s.pwidth := rfl

theorem setState_pheight (s : DpfState) (c : PixCall) : (setState s c).pheight = s.pheight := rfl

theorem setState_dcols (s : DpfState) (c : PixCall) : (setState s c).dcols = s.dcols := rfl

theorem setState_drows (s : DpfState) (c : PixCall) : (setState s c).drows = s.drows := rfl

theorem rectOf_setState (s : DpfState) (c : PixCall) :
    rectOf (setState s c) = bboxInsert (rectOf s) c.x c.y := rfl

theorem rowcol_ne (pw lx ly lx' ly' : Int)
    (hx0 : 0 ≤ lx) (hx1 : lx < pw) (hx0' : 0 ≤ lx') (hx1' : lx' < pw)
    (hne : lx ≠ lx' ∨ ly ≠ ly') :
    ly * pw + lx ≠ ly' * pw + lx' := by
  intro he
  have hpw : (0 : Int) < pw := lt_of_le_of_lt hx0 hx1
  have heq : lx + pw * ly = lx' + pw * ly' := by linear_combination he
  have e1 : (lx + pw * ly) % pw = lx := by
    rw [Int.add_mul_emod_self_left, Int.emod_eq_of_lt hx0 hx1]
  have e1' : (lx' + pw * ly') % pw = lx' := by
    rw [Int.add_mul_emod_self_left, Int.emod_eq_of_lt hx0' hx1']
  have e2 : (lx + pw * ly) / pw = ly := by
    rw [Int.add_mul_ediv_left _ _ (ne_of_gt hpw), Int.ediv_eq_zero_of_lt hx0 hx1, zero_add]
  have e2' : (lx' + pw * ly') / pw = ly' := by
    rw [Int.add_mul_ediv_left _ _ (ne_of_gt hpw), Int.ediv_eq_zero_of_lt hx0' hx1', zero_add]
  have hx : lx = lx' := by rw [← e1, ← e1', heq]
  have hy : ly = ly' := by rw [← e2, ← e2', heq]
  rcases hne with h | h
  · exact h hx
  · exact h hy

theorem pixIndex_sep (pw lx ly lx' ly' : Int)
    (hx0 : 0 ≤ lx) (hx1 : lx < pw) (hy0 : 0 ≤ ly)
    (hx0' : 0 ≤ lx') (hx1' : lx' < pw) (hy0' : 0 ≤ ly')
    (hne : lx ≠ lx' ∨ ly ≠ ly') :
    pixIndex pw lx' ly' ≠ pixIndex pw lx ly ∧
    pixIndex pw lx' ly' ≠ pixIndex pw lx ly + 1 ∧
    pixIndex pw lx' ly' + 1 ≠ pixIndex pw lx ly ∧
    pixIndex pw lx' ly' + 1 ≠ pixIndex pw lx ly + 1 := by
  have hpw : (0 : Int) < pw := lt_of_le_of_lt hx0 hx1
  have hrc : ly * pw + lx ≠ ly' * pw + lx' :=
    rowcol_ne pw lx ly lx' ly' hx0 hx1 hx0' hx1' hne
  have h0 : 0 ≤ ly * pw + lx := add_nonneg (mul_nonneg hy0 (le_of_lt hpw)) hx0
  have h0' : 0 ≤ ly' * pw + lx' := add_nonneg (mul_nonneg hy0' (le_of_lt hpw)) hx0'
  unfold pixIndex
  generalize hE : ly * pw + lx = e at *
  generalize hE' : ly' * pw + lx' = e' at *
  omega

theorem drv_set_pixel_inbounds (s : DpfState) (c : PixCall)
    (hdc : s.dcols = s.pwidth) (hdr : s.drows = s.pheight)
    (hx0 : 0 ≤ c.x) (hx1 : c.x < s.pwidth) (hy0 : 0 ≤ c.y) (hy1 : c.y < s.pheight) :
    drv_set_pixel s c.x c.y c.pix =
      if changesPixel s c = true then setState s c else s := by
  have hx1' : c.x < s.dcols := by rw [hdc]; exact hx1
  have hy1' : c.y < s.drows := by rw [hdr]; exact hy1
  simp only [drv_set_pixel]
  rw [tmod_eq_self hx0 hx1', tmod_eq_self hy0 hy1']
  rw [if_neg (by omega)]
  by_cases hc : changesPixel s c = true
  · rw [if_pos ((changesPixel_iff s c).mp hc), if_pos hc]
    rfl
  · have hc' := (changesPixel_iff s c).not.mp hc
    rw [if_neg hc', if_neg hc]

theorem changesPixel_setState (s : DpfState) (c c' : PixCall)
    (hx0 : 0 ≤ c.x) (hx1 : c.x < s.pwidth) (hy0 : 0 ≤ c.y)
    (hx0' : 0 ≤ c'.x) (hx1' : c'.x < s.pwidth) (hy0' : 0 ≤ c'.y)
    (hne : c.x ≠ c'.x ∨ c.y ≠ c'.y) :
    changesPixel (setState s c) c' = changesPixel s c' := by
  obtain ⟨d1, d2, d3, d4⟩ :=
    pixIndex_sep s.pwidth c.x c.y c'.x c'.y hx0 hx1 hy0 hx0' hx1' hy0' hne
  unfold changesPixel setState
  simp only []
  rw [Function.update_noteq d2, Function.update_noteq d1,
      Function.update_noteq d4, Function.update_noteq d3]

/-- Claim C5 (amended): for every sequence of setPixel calls to distinct
in-bounds coordinates, the tracked dirty rectangle equals the min/max
bounding-box fold, into the starting rectangle, of exactly those
coordinates whose converted pixel value differs from the bytes already
stored there; starting from the post-flush empty encoding this is the
tight bounding box of the coordinates that actually changed the buffer. -/
theorem claim_C5_amended (calls : List PixCall) :
    ∀ s : DpfState,
      s.dcols = s.pwidth → s.drows = s.pheight →
      (∀ c ∈ calls, 0 ≤ c.x ∧ c.x < s.pwidth ∧ 0 ≤ c.y ∧ c.y < s.pheight) →
      List.Pairwise (fun a b => a.x ≠ b.x ∨ a.y ≠ b.y) calls →
      rectOf (applyCalls s calls) =
        List.foldl (fun r c => bboxInsert r c.x c.y) (rectOf s)
          (calls.filter (fun c => changesPixel s c)) := by
  induction calls with
  | nil => intro s _ _ _ _; rfl
  | cons c rest ih =>
    intro s hdc hdr hin hpw
    obtain ⟨hcx0, hcx1, hcy0, hcy1⟩ := hin c (List.mem_cons_self _ _)
    rw [List.pairwise_cons] at hpw
    obtain ⟨hcne, hpw'⟩ := hpw
    have hstep := drv_set_pixel_inbounds s c hdc hdr hcx0 hcx1 hcy0 hcy1
    have happ : applyCalls s (c :: rest) = applyCalls (drv_set_pixel s c.x c.y c.pix) rest := rfl
    by_cases hc : changesPixel s c = true
    · rw [if_pos hc] at hstep
      rw [happ, hstep]
      have hinS : ∀ c' ∈ rest, 0 ≤ c'.x ∧ c'.x < (setState s c).pwidth ∧
          0 ≤ c'.y ∧ c'.y < (setState s c).pheight := by
        intro c' hc'
        rw [setState_pwidth, setState_pheight]
        exact hin c' (List.mem_cons_of_mem _ hc')
      have hrec := ih (setState s c)
        (by rw [setState_dcols, setState_pwidth]; exact hdc)
        (by rw [setState_drows, setState_pheight]; exact hdr)
        hinS hpw'
      rw [hrec]
      have hfilt : rest.filter (fun c' => changesPixel (setState s c) c') =
          rest.filter (fun c' => changesPixel s c') := by
        apply List.filter_congr
        intro c' hc'
        obtain ⟨hx0', hx1', hy0', hy1'⟩ := hin c' (List.mem_cons_of_mem _ hc')
        exact changesPixel_setState s c c' hcx0 hcx1 hcy0 hx0' hx1' hy0' (hcne c' hc')
      rw [hfilt, rectOf_setState]
      rw [List.filter_cons_of_pos hc, List.foldl_cons]
    · rw [if_neg hc] at hstep
      rw [happ, hstep]
      have hinS : ∀ c' ∈ rest, 0 ≤ c'.x ∧ c'.x < s.pwidth ∧ 0 ≤ c'.y ∧ c'.y < s.pheight :=
        fun c' hc' => hin c' (List.mem_cons_of_mem _ hc')
      rw [ih s hdc hdr hinS hpw']
      rw [List.filter_cons_of_neg (by simpa using hc)]

theorem drv_set_pixel_mono (s : DpfState) (x y : Int) (p : RGBA) :
    (drv_set_pixel s x y p).pwidth = s.pwidth ∧
    (drv_set_pixel s x y p).pheight = s.pheight ∧
    (drv_set_pixel s x y p).minx ≤ s.minx ∧
    s.maxx ≤ (drv_set_pixel s x y p).maxx ∧
    (drv_set_pixel s x y p).miny ≤ s.miny ∧
    s.maxy ≤ (drv_set_pixel s x y p).maxy := by
  simp only [drv_set_pixel]
  split
  · exact ⟨rfl, rfl, le_refl _, le_refl _, le_refl _, le_refl _⟩
  · split
    · exact ⟨rfl, rfl, min_le_left _ _, le_max_left _ _, min_le_left _ _, le_max_left _ _⟩
    · exact ⟨rfl, rfl, le_refl _, le_refl _, le_refl _, le_refl _⟩

theorem foldl_set_pixel_mono (f : DpfState → Int × Int → DpfState)
    (hf : ∀ st p, ∃ pix, f st p = drv_set_pixel st p.1 p.2 pix) :
    ∀ (l : List (Int × Int)) (s : DpfState),
      (List.foldl f s l).pwidth = s.pwidth ∧
      (List.foldl f s l).pheight = s.pheight ∧
      (List.foldl f s l).minx ≤ s.minx ∧
      s.maxx ≤ (List.foldl f s l).maxx ∧
      (List.foldl f s l).miny ≤ s.miny ∧
      s.maxy ≤ (List.foldl f s l).maxy := by
  intro l
  induction l with
  | nil =>
    intro s
    exact ⟨rfl, rfl, le_refl _, le_refl _, le_refl _, le_refl _⟩
  | cons a t ih =>
    intro s
    obtain ⟨pix, hfa⟩ := hf s a
    have h1 := drv_set_pixel_mono s a.1 a.2 pix
    have h2 := ih (f s a)
    rw [List.foldl_cons]
    rw [hfa] at h2 ⊢
    exact ⟨h2.1.trans h1.1, h2.2.1.trans h1.2.1,
           le_trans h2.2.2.1 h1.2.2.1, le_trans h1.2.2.2.1 h2.2.2.2.1,
           le_trans h2.2.2.2.2.1 h1.2.2.2.2.1, le_trans h1.2.2.2.2.2 h2.2.2.2.2.2⟩

theorem update_flush_nonempty (resp : Nat → BulkResult) (s : DpfState) (k : Nat)
    (ansbuf : List Nat) (h1 : s.minx ≤ s.maxx) (h2 : s.miny ≤ s.maxy) :
    (update_flush resp s k ansbuf).1.minx = s.pwidth - 1 ∧
    (update_flush resp s k ansbuf).1.maxx = 0 ∧
    (update_flush resp s k ansbuf).1.miny = s.pheight - 1 ∧
    (update_flush resp s k ansbuf).1.maxy = 0 := by
  unfold update_flush
  rw [if_neg (by omega)]
  exact ⟨rfl, rfl, rfl, rfl⟩

theorem statusAttempts_first_ok (resp : Nat → BulkResult) (k : Nat) (buf : List Nat)
    (h0 : (resp k).ret = 0) (h1 : (resp k).transfered = 13) :
    statusAttempts resp 5 k buf = (k + 1, (resp k).data.take 13 ++ buf.drop 13) := by
  show statusAttempts resp (4 + 1) k buf = _
  unfold statusAttempts
  rw [if_pos ⟨h0, h1⟩]
  rw [h1]
  rfl

theorem le16_bytes (v : Int) (h0 : 0 ≤ v) (h1 : v < 65536) :
    byteOfInt v = (v.emod 65536).toNat % 256 ∧
    byteOfInt (shr8 v) = (v.emod 65536).toNat / 256 := by
  lift v to ℕ using h0
  have hv : v < 65536 := by exact_mod_cast h1
  clear h1
  have hs : shr8 (v : Int) = ((v >>> 8 : Nat) : Int) := rfl
  rw [hs]
  unfold byteOfInt
  have a1 : ((v : Int)).emod 256 = ((v % 256 : Nat) : Int) := by norm_cast
  have a2 : ((v : Int)).emod 65536 = ((v % 65536 : Nat) : Int) := by norm_cast
  have a3 : (((v >>> 8 : Nat) : Int)).emod 256 = ((v >>> 8 % 256 : Nat) : Int) := by norm_cast
  rw [a1, a2, a3, Int.toNat_natCast, Int.toNat_natCast, Int.toNat_natCast]
  rw [Nat.shiftRight_eq_div_pow]
  have h8 : (2 : Nat) ^ 8 = 256 := by norm_num
  rw [h8]
  constructor
  · omega
  · omega

/-! Claim theorems. -/

/-- Claim C4: the driver sizes its buffers, bounds-checks setPixel and
resets the dirty rectangle from the hardcoded constants 480 x 320; the
dimensions discovered by the device query are stored on the handle but
the state main builds never depends on them (main_init is constant in the
handle). -/
theorem claim_C4 (ctx ctx' : DPFContext) (buf : List Nat) (xfer0 : Nat → Nat) :
    main_init ctx xfer0 = main_init ctx' xfer0 ∧
    main_init (dpf_ax_open_dims buf) xfer0 = main_init ctx xfer0 ∧
    (main_init ctx xfer0).pwidth = 480 ∧
    (main_init ctx xfer0).pheight = 320 ∧
    (main_init ctx xfer0).lcdBufSize = 480 * 320 * 2 ∧
    (main_init ctx xfer0).xferBufSize = 480 * 320 * 2 ∧
    (main_init ctx xfer0).dcols = 480 ∧
    (main_init ctx xfer0).drows = 320 ∧
    (main_init ctx xfer0).minx = 0 ∧
    (main_init ctx xfer0).maxx = 479 ∧
    (main_init ctx xfer0).miny = 0 ∧
    (main_init ctx xfer0).maxy = 319 := by
  exact ⟨rfl, rfl, rfl, rfl, rfl, rfl, rfl, rfl, rfl, rfl, rfl, rfl⟩

/-- Claim C7: a setPixel call whose coordinates are out of
[0, pwidth) x [0, pheight) after the truncated-remainder reduction leaves
the whole driver state (buffer and dirty rectangle) unchanged and reports
nothing to the caller. -/
theorem claim_C7 (s : DpfState) (x y : Int) (pix : RGBA)
    (h : Int.tmod x s.dcols < 0 ∨ s.pwidth ≤ Int.tmod x s.dcols ∨
         Int.tmod y s.drows < 0 ∨ s.pheight ≤ Int.tmod y s.drows) :
    drv_set_pixel s x y pix = s := by
  simp only [drv_set_pixel]
  rw [if_pos h]

/-- Claim C7 witness: x = -1 reduces to -1 under C truncated remainder,
which is rejected by the bounds check, and the state is untouched. -/
theorem claim_C7_witness :
    (Int.tmod (-1) flushedState.dcols < 0 ∨
     flushedState.pwidth ≤ Int.tmod (-1) flushedState.dcols ∨
     Int.tmod 5 flushedState.drows < 0 ∨
     flushedState.pheight ≤ Int.tmod 5 flushedState.drows) ∧
    drv_set_pixel flushedState (-1) 5 ⟨255, 0, 0, 255⟩ = flushedState :=
  ⟨by decide, claim_C7 flushedState (-1) 5 ⟨255, 0, 0, 255⟩ (by decide)⟩

/-- Claim C10: a flush on an empty dirty rectangle (minx > maxx or
miny > maxy) issues no bulk transfer (the transfer counter is unchanged)
and leaves the driver state and the static ansbuf exactly as they were. -/
theorem claim_C10 (resp : Nat → BulkResult) (s : DpfState) (k : Nat) (ansbuf : List Nat)
    (h : s.minx > s.maxx ∨ s.miny > s.maxy) :
    update_flush resp s k ansbuf = (s, k, ansbuf) := by
  unfold update_flush
  rw [if_pos h]

/-- Claim C10 witness: the post-flush empty rectangle skips the transfer. -/
theorem claim_C10_witness :
    (flushedState.minx > flushedState.maxx ∨ flushedState.miny > flushedState.maxy) ∧
    update_flush respAllOk flushedState 3 zeroAnsbuf = (flushedState, 3, zeroAnsbuf) :=
  ⟨by decide, claim_C10 respAllOk flushedState 3 zeroAnsbuf (by decide)⟩

/-- Claim C2 (amended): dpf_ax_screen_blit invokes Command Transport with
direction OUT on the encoded command, but it is void: it hands back no
return code; wrap_scsi's result value is discarded and only the transfer
counter and static ansbuf survive. -/
theorem claim_C2_amended (resp : Nat → BulkResult) (k : Nat) (ansbuf : List Nat)
    (rect : SRect) (buf : List Nat) :
    dpf_ax_screen_blit resp k ansbuf rect buf =
      ((), (performScsi resp k ansbuf (dpf_ax_screen_blit_call rect buf)).calls,
           (performScsi resp k ansbuf (dpf_ax_screen_blit_call rect buf)).ansbuf) := rfl

/-- Claim C2 counterexample: two runs of the same blit whose transports
return different codes (0 versus -7) are indistinguishable to blit's
caller, so the transport result is not propagated. -/
theorem claim_C2_counterexample :
    (performScsi respAllOk 0 zeroAnsbuf (dpf_ax_screen_blit_call ⟨0, 0, 1, 1⟩ [0, 0])).code = 0 ∧
    (performScsi respEnvFail 0 zeroAnsbuf (dpf_ax_screen_blit_call ⟨0, 0, 1, 1⟩ [0, 0])).code = -7 ∧
    (dpf_ax_screen_blit respAllOk 0 zeroAnsbuf ⟨0, 0, 1, 1⟩ [0, 0]).1 =
      (dpf_ax_screen_blit respEnvFail 0 zeroAnsbuf ⟨0, 0, 1, 1⟩ [0, 0]).1 := by
  exact ⟨by decide, by decide, rfl⟩

/-- Claim C1 (code bug): when the envelope succeeds and all five
status-phase attempts fail (libusb -110, nothing transferred), wrap_scsi
does not abort with a transfer error: after issuing exactly 5 status reads
(6 transfers in all) it falls through to the signature check on the stale
static ansbuf and returns the stale peer return code 7 as success. -/
theorem claim_C1_code_bug :
    (wrap_scsi respStatusFail 0 staleAnsbuf (List.replicate 16 0) 16 DIR_OUT none 0).code = 7 ∧
    (wrap_scsi respStatusFail 0 staleAnsbuf (List.replicate 16 0) 16 DIR_OUT none 0).calls = 6 ∧
    (wrap_scsi respStatusFail 0 staleAnsbuf (List.replicate 16 0) 16 DIR_OUT none 0).ansbuf =
      staleAnsbuf := by
  exact ⟨by decide, by decide, by decide⟩

theorem pixelFold_mono (fb : Nat → Nat) (l : List (Int × Int)) (s : DpfState) :
    (pixelFold fb s l).pwidth = s.pwidth ∧
    (pixelFold fb s l).pheight = s.pheight ∧
    (pixelFold fb s l).minx ≤ s.minx ∧
    s.maxx ≤ (pixelFold fb s l).maxx ∧
    (pixelFold fb s l).miny ≤ s.miny ∧
    s.maxy ≤ (pixelFold fb s l).maxy := by
  unfold pixelFold
  exact foldl_set_pixel_mono _ (fun st p => ⟨_, rfl⟩) l s

/-- Claim C9: the conversion is a pure total function of R, G, B alone:
byte0 packs the top 5 bits of R in place with the top 3 bits of G moved to
the low bits, byte1 packs the next 3 bits of G in the high bits with the
top 5 bits of B in the low bits, the result is independent of the alpha
field, and both outputs are single bytes. -/
theorem claim_C9 (r g b a1 a2 : Nat) (hr : r < 256) (hg : g < 256) (hb : b < 256) :
    _RGB565_0 ⟨r, g, b, a1⟩ = ((r >>> 3) <<< 3) ||| (g >>> 5) ∧
    _RGB565_1 ⟨r, g, b, a1⟩ = (((g >>> 2) &&& 7) <<< 5) ||| (b >>> 3) ∧
    _RGB565_0 ⟨r, g, b, a1⟩ = _RGB565_0 ⟨r, g, b, a2⟩ ∧
    _RGB565_1 ⟨r, g, b, a1⟩ = _RGB565_1 ⟨r, g, b, a2⟩ ∧
    _RGB565_0 ⟨r, g, b, a1⟩ < 256 ∧
    _RGB565_1 ⟨r, g, b, a1⟩ < 256 := by
  have e0 : _RGB565_0 ⟨r, g, b, a1⟩ = (r &&& 248) ||| ((g &&& 224) >>> 5) := rfl
  have e1 : _RGB565_1 ⟨r, g, b, a1⟩ = ((g &&& 28) <<< 3) ||| ((b &&& 248) >>> 3) := rfl
  have h256 : (2 : Nat) ^ 8 = 256 := by norm_num
  refine ⟨?_, ?_, rfl, rfl, ?_, ?_⟩
  · rw [e0, bits_e1 r hr, bits_e2 g hg]
  · rw [e1, bits_e3 g hg, bits_e4 b hb]
  · rw [e0]
    have k1 : (r &&& 248) < 2 ^ 8 :=
      lt_of_le_of_lt Nat.and_le_left (lt_of_lt_of_eq hr h256.symm)
    have k2 : ((g &&& 224) >>> 5) < 2 ^ 8 := by
      have : (g &&& 224) >>> 5 ≤ g &&& 224 := by
        rw [Nat.shiftRight_eq_div_pow]; exact Nat.div_le_self _ _
      exact lt_of_le_of_lt (le_trans this Nat.and_le_left) (lt_of_lt_of_eq hg h256.symm)
    exact lt_of_lt_of_eq (Nat.or_lt_two_pow k1 k2) h256
  · rw [e1]
    have k1 : ((g &&& 28) <<< 3) < 2 ^ 8 := by
      have : (g &&& 28) <<< 3 ≤ 28 <<< 3 := by
        rw [Nat.shiftLeft_eq, Nat.shiftLeft_eq]
        exact Nat.mul_le_mul_right _ Nat.and_le_right
      exact lt_of_le_of_lt this (by decide)
    have k2 : ((b &&& 248) >>> 3) < 2 ^ 8 := by
      have : (b &&& 248) >>> 3 ≤ b &&& 248 := by
        rw [Nat.shiftRight_eq_div_pow]; exact Nat.div_le_self _ _
      exact lt_of_le_of_lt (le_trans this Nat.and_le_left) (lt_of_lt_of_eq hb h256.symm)
    exact lt_of_lt_of_eq (Nat.or_lt_two_pow k1 k2) h256

/-- Claim C9 witness: conversion of (255, 10, 32) with two alphas. -/
theorem claim_C9_witness :
    ((255 : Nat) < 256 ∧ (10 : Nat) < 256 ∧ (32 : Nat) < 256) ∧
    (_RGB565_0 ⟨255, 10, 32, 7⟩ = ((255 >>> 3) <<< 3) ||| (10 >>> 5) ∧
     _RGB565_1 ⟨255, 10, 32, 7⟩ = (((10 >>> 2) &&& 7) <<< 5) ||| (32 >>> 3) ∧
     _RGB565_0 ⟨255, 10, 32, 7⟩ = _RGB565_0 ⟨255, 10, 32, 0⟩ ∧
     _RGB565_1 ⟨255, 10, 32, 7⟩ = _RGB565_1 ⟨255, 10, 32, 0⟩ ∧
     _RGB565_0 ⟨255, 10, 32, 7⟩ < 256 ∧
     _RGB565_1 ⟨255, 10, 32, 7⟩ < 256) :=
  ⟨by decide, claim_C9 255 10 32 7 0 (by decide) (by decide) (by decide)⟩

/-- Claim C3: a flush entered with a non-empty dirty rectangle leaves the
rectangle empty (maxx < minx and maxy < miny) afterwards, whatever the
transport oracle answers to the submitted blit; the reset is
unconditional. -/
theorem claim_C3 (resp : Nat → BulkResult) (fb : Nat → Nat) (s : DpfState) (k : Nat)
    (ansbuf : List Nat) (x y w h : Int)
    (h1 : s.minx ≤ s.maxx) (h2 : s.miny ≤ s.maxy)
    (h3 : 2 ≤ s.pwidth) (h4 : 2 ≤ s.pheight) :
    (update resp fb s k ansbuf x y w h).1.maxx < (update resp fb s k ansbuf x y w h).1.minx ∧
    (update resp fb s k ansbuf x y w h).1.maxy < (update resp fb s k ansbuf x y w h).1.miny := by
  obtain ⟨hw, hh', hmnx, hmxx, hmny, hmxy⟩ := pixelFold_mono fb (coordList x y w h) s
  have hf := update_flush_nonempty resp (pixelFold fb s (coordList x y w h)) k ansbuf
    (le_trans hmnx (le_trans h1 hmxx)) (le_trans hmny (le_trans h2 hmxy))
  show (update_flush resp (pixelFold fb s (coordList x y w h)) k ansbuf).1.maxx <
         (update_flush resp (pixelFold fb s (coordList x y w h)) k ansbuf).1.minx ∧
       (update_flush resp (pixelFold fb s (coordList x y w h)) k ansbuf).1.maxy <
         (update_flush resp (pixelFold fb s (coordList x y w h)) k ansbuf).1.miny
  rw [hf.1, hf.2.1, hf.2.2.1, hf.2.2.2]
  omega

/-- Claim C3 witness: update on the freshly initialized (fully dirty)
480 x 320 state leaves the rectangle empty. -/
theorem claim_C3_witness :
    ((main_init ⟨480, 320⟩ (fun _ => 0)).minx ≤ (main_init ⟨480, 320⟩ (fun _ => 0)).maxx ∧
     (main_init ⟨480, 320⟩ (fun _ => 0)).miny ≤ (main_init ⟨480, 320⟩ (fun _ => 0)).maxy ∧
     2 ≤ (main_init ⟨480, 320⟩ (fun _ => 0)).pwidth ∧
     2 ≤ (main_init ⟨480, 320⟩ (fun _ => 0)).pheight) ∧
    ((update respAllOk (fun _ => 0) (main_init ⟨480, 320⟩ (fun _ => 0)) 0 zeroAnsbuf 0 0 0 0).1.maxx <
       (update respAllOk (fun _ => 0) (main_init ⟨480, 320⟩ (fun _ => 0)) 0 zeroAnsbuf 0 0 0 0).1.minx ∧
     (update respAllOk (fun _ => 0) (main_init ⟨480, 320⟩ (fun _ => 0)) 0 zeroAnsbuf 0 0 0 0).1.maxy <
       (update respAllOk (fun _ => 0) (main_init ⟨480, 320⟩ (fun _ => 0)) 0 zeroAnsbuf 0 0 0 0).1.miny) :=
  ⟨by decide,
   claim_C3 respAllOk (fun _ => 0) (main_init ⟨480, 320⟩ (fun _ => 0)) 0 zeroAnsbuf 0 0 0 0
     (by decide) (by decide) (by decide) (by decide)⟩

/-- Claim C8: the command handed to Command Transport by a blit carries
(after the constant 6-byte command prefix) the blit opcode 0x12, then x0,
y0, x1 - 1 and y1 - 1 each as 16-bit little-endian byte pairs, then a
reserved zero byte; the data-phase direction is OUT on the pixel data and
its length is (x1 - x0) * (y1 - y0) * 2 bytes. -/
theorem claim_C8 (rect : SRect) (buf : List Nat)
    (h0 : 0 ≤ rect.r0) (h1 : 0 ≤ rect.r1)
    (h2 : rect.r0 < rect.r2) (h3 : rect.r1 < rect.r3)
    (h4 : rect.r2 ≤ 32768) (h5 : rect.r3 ≤ 32768) :
    (dpf_ax_screen_blit_call rect buf).cmd =
      [0xcd, 0, 0, 0, 0, 6, 0x12] ++ le16 rect.r0 ++ le16 rect.r1 ++
        le16 (rect.r2 - 1) ++ le16 (rect.r3 - 1) ++ [0] ∧
    (dpf_ax_screen_blit_call rect buf).dir = DIR_OUT ∧
    (dpf_ax_screen_blit_call rect buf).data = some buf ∧
    (dpf_ax_screen_blit_call rect buf).blockLen =
      (((rect.r2 - rect.r0) * (rect.r3 - rect.r1)) * 2).toNat := by
  obtain ⟨ea0, ea1⟩ := le16_bytes rect.r0 h0 (by omega)
  obtain ⟨eb0, eb1⟩ := le16_bytes rect.r1 h1 (by omega)
  obtain ⟨ec0, ec1⟩ := le16_bytes (rect.r2 - 1) (by omega) (by omega)
  obtain ⟨ed0, ed1⟩ := le16_bytes (rect.r3 - 1) (by omega) (by omega)
  refine ⟨?_, rfl, rfl, ?_⟩
  · show blitCmd rect = _
    simp only [blitCmd, le16, List.cons_append, List.nil_append]
    rw [ea0, ea1, eb0, eb1, ec0, ec1, ed0, ed1]
  · show blitLen rect = _
    unfold blitLen
    have hq2 : (0 : Int) ≤ rect.r2 - rect.r0 := by omega
    have hq3 : (0 : Int) ≤ rect.r3 - rect.r1 := by omega
    have hp0 : (0 : Int) ≤ (rect.r2 - rect.r0) * (rect.r3 - rect.r1) := mul_nonneg hq2 hq3
    have hpb : (rect.r2 - rect.r0) * (rect.r3 - rect.r1) ≤ 32768 * 32768 :=
      mul_le_mul (by omega) (by omega) hq3 (by omega)
    generalize hP : (rect.r2 - rect.r0) * (rect.r3 - rect.r1) = p at hp0 hpb ⊢
    have hme : Int.emod p 18446744073709551616 = p := Int.emod_eq_of_lt hp0 (by omega)
    rw [hme]
    omega

/-- Claim C8 witness: the spec scenario rectangle [10, 10, 21, 21). -/
theorem claim_C8_witness :
    ((0 : Int) ≤ 10 ∧ (0 : Int) ≤ 10 ∧ (10 : Int) < 21 ∧ (10 : Int) < 21 ∧
     (21 : Int) ≤ 32768 ∧ (21 : Int) ≤ 32768) ∧
    ((dpf_ax_screen_blit_call ⟨10, 10, 21, 21⟩ []).cmd =
       [0xcd, 0, 0, 0, 0, 6, 0x12] ++ le16 10 ++ le16 10 ++
         le16 (21 - 1) ++ le16 (21 - 1) ++ [0] ∧
     (dpf_ax_screen_blit_call ⟨10, 10, 21, 21⟩ []).dir = DIR_OUT ∧
     (dpf_ax_screen_blit_call ⟨10, 10, 21, 21⟩ []).data = some [] ∧
     (dpf_ax_screen_blit_call ⟨10, 10, 21, 21⟩ []).blockLen =
       (((21 - 10) * (21 - 10) : Int) * 2).toNat) :=
  ⟨by decide,
   claim_C8 ⟨10, 10, 21, 21⟩ [] (by decide) (by decide) (by decide) (by decide)
     (by decide) (by decide)⟩

/-- Claim C6: whenever the phases before the status read succeed and the
status read itself is length-correct, wrap_scsi returns -1 (protocol
error) when the first four reply bytes differ from "USBS", regardless of
the return-code byte, and returns byte 12 of the reply unchanged when the
signature matches. -/
theorem claim_C6 (resp : Nat → BulkResult) (k0 : Nat) (ansbuf0 : List Nat)
    (cmd : List Nat) (cmdlen out : Nat) (data : Option (List Nat)) (block_len : Nat)
    (dr : List Nat) (k1 : Nat) (reply : List Nat)
    (henv : (resp k0).ret = 0)
    (hdata : dataPhase resp (k0 + 1) out data block_len = (none, dr, k1))
    (hs0 : (resp k1).ret = 0) (hs1 : (resp k1).transfered = 13)
    (hs2 : (resp k1).data = reply) (hlen : reply.length = 13)
    (hans : ansbuf0.length = 13) :
    (wrap_scsi resp k0 ansbuf0 cmd cmdlen out data block_len).code =
      if reply.take 4 = usbsSig then (reply.getD 12 0 : Int) else -1 := by
  have ht : reply.take 13 = reply := List.take_of_length_le (by omega)
  have hd : ansbuf0.drop 13 = [] := List.drop_eq_nil_of_le (by omega)
  simp only [wrap_scsi]
  rw [if_neg (show ¬((resp k0).ret ≠ 0) from by simp [henv])]
  rw [hdata]
  simp only []
  rw [statusAttempts_first_ok resp k1 ansbuf0 hs0 hs1, hs2, ht, hd, List.append_nil]
  by_cases hsig : reply.take 4 = usbsSig
  · rw [if_neg (by simp [hsig]), if_pos hsig]
    rfl
  · rw [if_pos (by simp [hsig]), if_neg hsig]

/-- Claim C6 witness: a length-correct reply with a wrong signature and
return-code byte 9 makes wrap_scsi return -1. -/
theorem claim_C6_witness :
    ((respBadSig 0).ret = 0 ∧
     dataPhase respBadSig 1 DIR_OUT none 0 = (none, [], 1) ∧
     (respBadSig 1).ret = 0 ∧ (respBadSig 1).transfered = 13 ∧
     (respBadSig 1).data = badSigReply ∧ badSigReply.length = 13 ∧
     zeroAnsbuf.length = 13) ∧
    (wrap_scsi respBadSig 0 zeroAnsbuf (List.replicate 16 0) 16 DIR_OUT none 0).code =
      if badSigReply.take 4 = usbsSig then (badSigReply.getD 12 0 : Int) else -1 :=
  ⟨⟨by decide, by decide, by decide, by decide, by decide, by decide, by decide⟩,
   claim_C6 respBadSig 0 zeroAnsbuf (List.replicate 16 0) 16 DIR_OUT none 0 [] 1 badSigReply
     (by decide) (by decide) (by decide) (by decide) (by decide) (by decide) (by decide)⟩

/-- Claim C5 counterexample: with the post-flush empty rectangle and a
black display buffer, one in-bounds setPixel of a black pixel at (5, 5)
leaves the rectangle empty, so the tracked rectangle does not equal the
tight bounding box (5, 5, 5, 5) of the written coordinates. -/
theorem claim_C5_counterexample :
    flushedState.maxx < flushedState.minx ∧
    ((0 : Int) ≤ 5 ∧ (5 : Int) < flushedState.pwidth ∧
     (0 : Int) ≤ 5 ∧ (5 : Int) < flushedState.pheight) ∧
    rectOf (applyCalls flushedState [⟨5, 5, ⟨0, 0, 0, 255⟩⟩]) = rectOf flushedState ∧
    rectOf flushedState ≠ (5, 5, 5, 5) := by
  exact ⟨by decide, by decide, by decide, by decide⟩

/-- Claim C5 witness: the spec scenario, red at (10, 10) and green at
(20, 20) on a black 480 x 320 panel just after a flush. -/
theorem claim_C5_witness :
    (flushedState.dcols = flushedState.pwidth ∧
     flushedState.drows = flushedState.pheight ∧
     (∀ c ∈ demoCalls, 0 ≤ c.x ∧ c.x < flushedState.pwidth ∧
        0 ≤ c.y ∧ c.y < flushedState.pheight) ∧
     List.Pairwise (fun a b => a.x ≠ b.x ∨ a.y ≠ b.y) demoCalls) ∧
    rectOf (applyCalls flushedState demoCalls) =
      List.foldl (fun r c => bboxInsert r c.x c.y) (rectOf flushedState)
        (demoCalls.filter (fun c => changesPixel flushedState c)) :=
  ⟨⟨rfl, rfl, by decide, by decide⟩,
   claim_C5_amended demoCalls flushedState rfl rfl (by decide) (by decide)⟩
